import Mathlib

/-!
Verification of the TNT platform-detection and rate-computation core.

The definitions below are a shallow embedding of the JavaScript sources:
`PlatformDetectionSystem` (signal-based platform resolution),
`AirportZonePricing` (flat airport route rates), the rate simulation
functions of `RateCalculationTester`, and `DriverPortalSync`
(availability fallback).  String operations are re-implemented
structurally over character lists so that every definition evaluates
inside the kernel; character lowering models the ASCII fragment of
JavaScript toLowerCase, which is all the rule tables use.
-/

namespace TNT

/-- The closed set of platform identities: retail, gnet (Partner), groundspan (Corporate). -/
inductive Platform where
  | retail
  | gnet
  | groundspan
deriving DecidableEq

/-- ASCII lowercasing of a single character (the fragment of
JavaScript toLowerCase exercised by the rule tables). -/
def lowerChar (c : Char) : Char :=
  if 65 ≤ c.toNat ∧ c.toNat ≤ 90 then Char.ofNat (c.toNat + 32) else c

/-- String lowercasing, as used on hostname, path and referrer signals. -/
def jsToLower (s : String) : String := ⟨s.data.map lowerChar⟩

/-- Does the character list begin with the given pattern? -/
def startsWithSeq : List Char → List Char → Bool
  | [], _ => true
  | _ :: _, [] => false
  | p :: ps, c :: cs => p == c && startsWithSeq ps cs

/-- Does the character list contain the pattern as a contiguous run?
Models JavaScript String.includes. -/
def containsSeq (pat : List Char) : List Char → Bool
  | [] => startsWithSeq pat []
  | c :: cs => startsWithSeq pat (c :: cs) || containsSeq pat cs

/-- JavaScript hay.includes(pat). -/
def strIncludes (hay pat : String) : Bool := containsSeq pat.data hay.data

/-- JavaScript s.endsWith(suff). -/
def jsEndsWith (s suff : String) : Bool :=
  startsWithSeq suff.data.reverse s.data.reverse

/-- Characters of the list strictly before the first occurrence of ch. -/
def beforeChar (ch : Char) : List Char → List Char
  | [] => []
  | c :: cs => if c == ch then [] else c :: beforeChar ch cs

/-- Characters after the first occurrence of ch, or none when ch is absent. -/
def afterChar (ch : Char) : List Char → Option (List Char)
  | [] => none
  | c :: cs => if c == ch then some cs else afterChar ch cs

/-- Splits a detection parameter pattern the way checkUrlParameters does:
param.includes('=') selects the keyed form, and param.split('=') keeps the
first segment as key and the second as value. -/
def paramKeyValue (pat : String) : String × Option String :=
  match afterChar '=' pat.data with
  | none => (pat, none)
  | some rest => (⟨beforeChar '=' pat.data⟩, some ⟨beforeChar '=' rest⟩)

/-- URLSearchParams.get: the first value stored under the key (case-sensitive). -/
def getParam (qs : List (String × String)) (k : String) : Option String :=
  (qs.find? (fun kv => kv.1 == k)).map (fun kv => kv.2)

/-- URLSearchParams.has: is the key present (case-sensitive)? -/
def hasParam (qs : List (String × String)) (k : String) : Bool :=
  qs.any (fun kv => kv.1 == k)

/-- Detection rule table of one platform (config.detection in the source). -/
structure DetectionRules where
  domains : List String
  pathFragments : List String
  referrers : List String
  params : List String

/-- The config.detection table of PlatformDetectionSystem. -/
def detectionRules : Platform → DetectionRules
  | .retail =>
      ⟨["tntlimousine.com", "localhost"],
       ["/pricing", "/quote", "/retail"],
       ["google.com", "bing.com", "facebook.com"],
       ["source=website", "utm_source=organic", "type=retail"]⟩
  | .gnet =>
      ⟨["gnet.tntlimousine.com", "partners.tntlimousine.com"],
       ["/gnet", "/partner", "/affiliate"],
       ["gnet.com", "partner-portal.com"],
       ["source=gnet", "partner=gnet", "utm_source=gnet", "platform=gnet"]⟩
  | .groundspan =>
      ⟨["corporate.tntlimousine.com", "capitalone.tntlimousine.com"],
       ["/corporate", "/groundspan", "/capitalone"],
       ["capitalone.com", "groundspan.com"],
       ["source=corporate", "client=capitalone", "platform=groundspan", "corporate=true"]⟩

/-- Iteration order of Object.entries(this.config.detection). -/
def platformOrder : List Platform := [.retail, .gnet, .groundspan]

/-- One parameter pattern matched against the query string
(checkUrlParameters inner loop; note: no lowercasing here). -/
def paramPatternMatches (qs : List (String × String)) (pat : String) : Bool :=
  match paramKeyValue pat with
  | (k, some v) => getParam qs k == some v
  | (k, none) => hasParam qs k

/-- PlatformDetectionSystem.checkUrlParameters. -/
def checkUrlParameters (qs : List (String × String)) : Option Platform :=
  platformOrder.findSome? (fun p =>
    if (detectionRules p).params.any (paramPatternMatches qs) then some p else none)

/-- hostname === domain || hostname.endsWith('.' + domain). -/
def domainMatches (hostname domain : String) : Bool :=
  hostname == domain || jsEndsWith hostname ("." ++ domain)

/-- Does the (lowercased) hostname match any registered domain of the platform? -/
def hostMatchesPlatform (p : Platform) (hostname : String) : Bool :=
  (detectionRules p).domains.any (fun d => domainMatches (jsToLower hostname) d)

/-- PlatformDetectionSystem.checkSubdomain. -/
def checkSubdomain (hostname : String) : Option Platform :=
  platformOrder.findSome? (fun p =>
    if hostMatchesPlatform p hostname then some p else none)

/-- PlatformDetectionSystem.checkPath. -/
def checkPath (pathname : String) : Option Platform :=
  platformOrder.findSome? (fun p =>
    if (detectionRules p).pathFragments.any (fun pa => strIncludes (jsToLower pathname) pa)
    then some p else none)

/-- PlatformDetectionSystem.checkReferrer. -/
def checkReferrer (referrer : String) : Option Platform :=
  if jsToLower referrer == "" then none
  else platformOrder.findSome? (fun p =>
    if (detectionRules p).referrers.any (fun d => strIncludes (jsToLower referrer) d)
    then some p else none)

/-- A stored string is honoured only when it is a key of config.platforms. -/
def platformKey? (s : String) : Option Platform :=
  if s == "retail" then some .retail
  else if s == "gnet" then some .gnet
  else if s == "groundspan" then some .groundspan
  else none

/-- The ambient request signals consumed by detectPlatform. -/
structure RequestSignals where
  queryParams : List (String × String)
  hostname : String
  pathname : String
  referrer : String
  stored : Option String

/-- PlatformDetectionSystem.detectPlatform: priority-ordered, first match wins,
falling back to the stored preference and finally to retail. -/
def detectPlatform (s : RequestSignals) : Platform :=
  match checkUrlParameters s.queryParams with
  | some p => p
  | none =>
    match checkSubdomain s.hostname with
    | some p => p
    | none =>
      match checkPath s.pathname with
      | some p => p
      | none =>
        match checkReferrer s.referrer with
        | some p => p
        | none =>
          match s.stored.bind platformKey? with
          | some p => p
          | none => .retail

/-! ## Rate tables and rate simulation functions -/

/-- JavaScript Math.max on rational inputs. -/
def jsMax (a b : ℚ) : ℚ := if a ≤ b then b else a

/-- The x || null coercion applied to a looked-up numeric rate:
a missing entry stays missing and a zero entry is coerced away. -/
def jsOrNull (o : Option ℕ) : Option ℕ :=
  match o with
  | none => none
  | some r => if r = 0 then none else some r

/-- Association-list lookup with propositional key comparison; models
JavaScript object indexing obj[key]. -/
def alook {β : Type} (k : String) : List (String × β) → Option β
  | [] => none
  | (k2, v) :: rest => if k = k2 then some v else alook k rest

/-- The hourlyRates table of RateCalculationTester.simulateHourlyRate. -/
def hourlyRates : List (String × ℚ) :=
  [("sedan", 100), ("transit", 137), ("executive-mini-bus", 142),
   ("mini-bus-sofa", 142), ("stretch-limo", 160), ("sprinter-limo", 160),
   ("limo-bus", 208)]

/-- RateCalculationTester.simulateHourlyRate: a recognised vehicle is billed
rate times max(hours, 3); hours || 0 in the source is the identity on
rational inputs so it is left implicit. -/
def simulateHourlyRate (vehicleType : String) (hours : ℚ) : Option ℚ :=
  match alook vehicleType hourlyRates with
  | none => none
  | some rate => some (rate * jsMax hours 3)

/-- Per-platform hourly tables of simulatePlatformHourlyRate. -/
def retailHourlyTable : List (String × ℚ) :=
  [("sedan", 100), ("transit", 137), ("limo-bus", 208)]

/-- GNET shares the retail hourly table values. -/
def gnetHourlyTable : List (String × ℚ) :=
  [("sedan", 100), ("transit", 137), ("limo-bus", 208)]

/-- Corporate (groundspan) hourly table values. -/
def groundspanHourlyTable : List (String × ℚ) :=
  [("sedan", 110), ("transit", 147), ("limo-bus", 218)]

/-- The platformRates object of simulatePlatformHourlyRate. -/
def platformHourlyRates : List (String × List (String × ℚ)) :=
  [("retail", retailHourlyTable), ("gnet", gnetHourlyTable),
   ("groundspan", groundspanHourlyTable)]

/-- RateCalculationTester.simulatePlatformHourlyRate; if (!rate) return null
covers both a missing entry and a zero entry. -/
def simulatePlatformHourlyRate (platform vehicleType : String) (hours : ℚ) : Option ℚ :=
  match (alook platform platformHourlyRates).bind (fun t => alook vehicleType t) with
  | none => none
  | some rate => if rate = 0 then none else some (rate * jsMax hours 3)

/-- The AirportZonePricing.rates table (also duplicated as airportRates
inside simulateAirportZoneRate with identical values). -/
def airportZoneRates : List (String × List (String × List (String × ℕ))) :=
  [("sedan",
    [("central-virginia", [("ric", 105), ("dca", 450), ("iad", 460), ("bwi", 657), ("cho", 333)]),
     ("prince-george", [("ric", 105), ("dca", 450), ("iad", 460), ("bwi", 657)]),
     ("norfolk", [("ric", 105), ("cho", 333)]),
     ("charlottesville", [("central-virginia", 333), ("norfolk", 333)])]),
   ("transit",
    [("central-virginia", [("ric", 175), ("dca", 700), ("iad", 710), ("bwi", 854), ("cho", 525)]),
     ("prince-george", [("ric", 175), ("dca", 700), ("iad", 710), ("bwi", 854)]),
     ("norfolk", [("ric", 175)]),
     ("charlottesville", [("central-virginia", 525)])]),
   ("sprinter-limo",
    [("central-virginia", [("ric", 194), ("dca", 780), ("iad", 790), ("bwi", 910), ("cho", 575)]),
     ("prince-george", [("ric", 194), ("dca", 780), ("iad", 790), ("bwi", 910)]),
     ("norfolk", [("ric", 194)]),
     ("charlottesville", [("central-virginia", 575)])]),
   ("limo-bus",
    [("central-virginia", [("ric", 225), ("dca", 1020), ("iad", 1045), ("bwi", 1265), ("cho", 624)]),
     ("prince-george", [("ric", 225), ("dca", 1020), ("iad", 1045), ("bwi", 1265)]),
     ("norfolk", [("ric", 225)]),
     ("charlottesville", [("central-virginia", 624)])])]

/-- AirportZonePricing.getRate: rates[vehicleType]?.[zone]?.[airport] || null. -/
def getRate (vehicleType zone airport : String) : Option ℕ :=
  jsOrNull (((alook vehicleType airportZoneRates).bind
    (fun zt => alook zone zt)).bind (fun at_ => alook airport at_))

/-- AirportZonePricing.validateRoute: rate !== null && rate > 0. -/
def validateRoute (vehicleType zone airport : String) : Bool :=
  match getRate vehicleType zone airport with
  | none => false
  | some r => decide (0 < r)

/-- RateCalculationTester.simulateAirportZoneRate: its airportRates literal
carries the same entries as AirportZonePricing.rates. -/
def simulateAirportZoneRate (vehicleType zone airport : String) : Option ℕ :=
  jsOrNull (((alook vehicleType airportZoneRates).bind
    (fun zt => alook zone zt)).bind (fun at_ => alook airport at_))

/-- The corporateRates object of simulatePlatformAirportRate. -/
def corporateAirportRates : List (String × List (String × ℕ)) :=
  [("sedan", [("dca", 485), ("iad", 495), ("bwi", 705)])]

/-- The airportMap object of simulatePlatformAirportRate. -/
def airportMap : List (String × String) :=
  [("dca", "dca"), ("iad", "iad"), ("bwi", "bwi")]

/-- RateCalculationTester.simulatePlatformAirportRate: a direct corporate
table for groundspan, the central-virginia zone rates otherwise; an airport
missing from airportMap indexes the zone table with an undefined key and
therefore yields null. -/
def simulatePlatformAirportRate (platform vehicleType airport : String) : Option ℕ :=
  if platform = "groundspan" then
    jsOrNull ((alook vehicleType corporateAirportRates).bind (fun t => alook airport t))
  else
    match alook airport airportMap with
    | some a2 => simulateAirportZoneRate vehicleType "central-virginia" a2
    | none => none

/-- commissionRates.standard, 0.12 in the source. -/
def commissionRateStandard : ℚ := 12 / 100

/-- commissionRates.premium, 0.15 in the source. -/
def commissionRatePremium : ℚ := 15 / 100

/-- RateCalculationTester.simulateCommissionCalculation. -/
def simulateCommissionCalculation (serviceType : String) (totalAmount : ℚ) : ℚ :=
  totalAmount * (if serviceType = "airport" then commissionRatePremium else commissionRateStandard)

/-! ## Price breakdowns -/

/-- Kinds of line items of a PriceBreakdown. -/
inductive LineKind where
  | base
  | gratuity
  | fuelSurcharge
  | mileageCharge
  | platformPremium
  | timeDiscount
  | durationDiscount
  | lastMinuteDiscount
  | afterHoursSurcharge
  | holidaySurcharge
  | commission
deriving DecidableEq

/-- One itemised component of a price breakdown. -/
structure LineItem where
  label : String
  amount : ℚ
  kind : LineKind
deriving DecidableEq

/-- The customer-facing Total: the fold-sum of all line items except
Commission (spec section 4.2 step 6). -/
def customerTotal (ls : List LineItem) : ℚ :=
  (ls.filter (fun li => decide (li.kind ≠ LineKind.commission))).foldl
    (fun acc li => acc + li.amount) 0

/-- Modelled from the spec: steps 5 and 6 of the Rate Engine pipeline
(commission is appended for the Partner platform only, computed with
simulateCommissionCalculation on the customer-facing total); the
breakdown-assembly code itself is not among the repository sources,
which carry only its tests and documentation. -/
def appendCommission (platform serviceType : String) (ls : List LineItem) : List LineItem :=
  if platform = "gnet" then
    ls ++ [⟨"GNET Commission", simulateCommissionCalculation serviceType (customerTotal ls),
           LineKind.commission⟩]
  else ls

/-- Modelled from the spec: the Retail hourly quote pipeline of section 4.2
(base lookup with the 3-hour minimum, then the Monday-Thursday 10 percent
discount, the 6-plus-hour 10 percent discount and the last-minute 15 percent
discount each computed on the running subtotal, then the after-hours flat
fee and the 25 percent holiday surcharge); the pipeline code itself is not
among the repository sources, which carry only its tests and documentation.
dayOfWeek is 0 for Sunday through 6 for Saturday; pickupHour is the local
hour of pickup; leadTimeHours is the distance from now to pickup. -/
def retailHourlyQuote (vehicleType : String) (hours : ℚ) (dayOfWeek pickupHour : ℕ)
    (leadTimeHours : ℚ) (isHoliday : Bool) : Option (List LineItem) :=
  match alook vehicleType hourlyRates with
  | none => none
  | some rate =>
    let base : ℚ := rate * jsMax hours 3
    let items0 : List LineItem := [⟨"Base Rate", base, LineKind.base⟩]
    let step1 : List LineItem × ℚ :=
      if 1 ≤ dayOfWeek ∧ dayOfWeek ≤ 4 then
        (items0 ++ [⟨"Monday-Thursday Discount", -(base * 10 / 100), LineKind.timeDiscount⟩],
         base - base * 10 / 100)
      else (items0, base)
    let step2 : List LineItem × ℚ :=
      if 6 ≤ hours then
        (step1.1 ++ [⟨"6+ Hour Discount", -(step1.2 * 10 / 100), LineKind.durationDiscount⟩],
         step1.2 - step1.2 * 10 / 100)
      else step1
    let step3 : List LineItem × ℚ :=
      if leadTimeHours < 24 then
        (step2.1 ++ [⟨"Last-Minute Discount", -(step2.2 * 15 / 100), LineKind.lastMinuteDiscount⟩],
         step2.2 - step2.2 * 15 / 100)
      else step2
    let step4 : List LineItem × ℚ :=
      if 23 ≤ pickupHour ∨ pickupHour < 6 then
        (step3.1 ++ [⟨"After-Hours Surcharge", 20, LineKind.afterHoursSurcharge⟩], step3.2 + 20)
      else step3
    some (if isHoliday then
      step4.1 ++ [⟨"Holiday Surcharge", step4.2 * 25 / 100, LineKind.holidaySurcharge⟩]
    else step4.1)

/-! ## Driver portal availability -/

/-- The availability payload of a successful pricing-sync response. -/
structure AvailabilityData where
  available : Bool
  vehicleClass : String
  assignedVehicleId : Option String
  driverAvailable : Bool
  conflictingTrips : Option (List String)
deriving DecidableEq

/-- A pricing-sync transport response: the success flag and, when present,
the availability payload. -/
structure SyncResponse where
  success : Bool
  availability : AvailabilityData
deriving DecidableEq

/-- What DriverPortalSync.checkVehicleAvailability hands back to the caller. -/
structure AvailabilityResult where
  available : Bool
  vehicleClass : String
  assignedVehicleId : Option String
  driverAvailable : Option Bool
  conflicts : List String
deriving DecidableEq

/-- The conservative fallback returned on an unsuccessful response and on a
thrown transport error. -/
def availabilityFallback : AvailabilityResult :=
  { available := true, vehicleClass := "sedan", assignedVehicleId := none,
    driverAvailable := none, conflicts := [] }

/-- DriverPortalSync.checkVehicleAvailability: a network failure is the none
transport outcome, an unsuccessful response carries success = false; both
degrade to the fallback instead of propagating. -/
def checkVehicleAvailability (transport : Option SyncResponse) : AvailabilityResult :=
  match transport with
  | none => availabilityFallback
  | some r =>
    if r.success then
      { available := r.availability.available,
        vehicleClass := r.availability.vehicleClass,
        assignedVehicleId := r.availability.assignedVehicleId,
        driverAvailable := some r.availability.driverAvailable,
        conflicts := r.availability.conflictingTrips.getD [] }
    else availabilityFallback

/-! ## Helper lemmas -/

/-- A successful alook finds a stored pair. -/
theorem alook_mem {β : Type} {k : String} {r : β} :
    ∀ {l : List (String × β)}, alook k l = some r → (k, r) ∈ l := by
  intro l
  induction l with
  | nil => intro h; exact absurd h (by simp [alook])
  | cons kv rest ih =>
    obtain ⟨k2, v⟩ := kv
    intro h
    simp only [alook] at h
    split at h
    · rename_i hk
      rw [Option.some.injEq] at h
      exact List.mem_cons.mpr (Or.inl (by rw [hk, h]))
    · exact List.mem_cons_of_mem _ (ih h)

/-- The looked-up-or-null coercion only ever exposes strictly positive rates. -/
theorem jsOrNull_pos {o : Option ℕ} {r : ℕ} (h : jsOrNull o = some r) : 0 < r := by
  cases o with
  | none => exact absurd h (by simp [jsOrNull])
  | some x =>
    simp only [jsOrNull] at h
    split at h
    · exact absurd h (by simp)
    · rename_i hx
      rw [Option.some.injEq] at h
      rw [← h]
      exact Nat.pos_of_ne_zero hx

/-- The looked-up-or-null coercion yields nothing or a strictly positive rate. -/
theorem jsOrNull_cases (o : Option ℕ) :
    jsOrNull o = none ∨ ∃ r, jsOrNull o = some r ∧ 0 < r := by
  cases ho : jsOrNull o with
  | none => exact Or.inl rfl
  | some r => exact Or.inr ⟨r, rfl, jsOrNull_pos ho⟩

/-- Math.max is bounded below by its second argument. -/
theorem le_jsMax_right (a b : ℚ) : b ≤ jsMax a b := by
  unfold jsMax
  split
  · exact le_refl b
  · rename_i hab
    exact le_of_lt (lt_of_not_le hab)

/-- Clamping at three hours keeps the billed duration nonnegative. -/
theorem jsMax_three_nonneg (h : ℚ) : 0 ≤ jsMax h 3 :=
  le_trans (by norm_num) (le_jsMax_right h 3)

/-- Unfolds simulatePlatformHourlyRate once the platform row is known. -/
theorem simulatePlatformHourlyRate_eq (platform vehicleType : String) (hours : ℚ)
    (t : List (String × ℚ)) (ht : alook platform platformHourlyRates = some t) :
    simulatePlatformHourlyRate platform vehicleType hours =
      match alook vehicleType t with
      | none => none
      | some rate => if rate = 0 then none else some (rate * jsMax hours 3) := by
  unfold simulatePlatformHourlyRate
  rw [ht]
  rfl

/-- Unfolds the groundspan branch of simulatePlatformAirportRate. -/
theorem simulatePlatformAirportRate_groundspan_eq (vehicleType airport : String) :
    simulatePlatformAirportRate "groundspan" vehicleType airport =
      jsOrNull ((alook vehicleType corporateAirportRates).bind (fun t => alook airport t)) :=
  rfl

/-! ## Claim theorems -/

/-- Claim C1: a Commission line item is present in the breakdown iff the
platform is Partner (gnet); its amount equals the customer-facing Total
times 0.15 for Airport service and 0.12 otherwise; and appending the
Commission line never alters the customer-facing Total. -/
theorem commission_iff_partner (platform serviceType : String) (ls : List LineItem)
    (hnc : ∀ li ∈ ls, li.kind ≠ LineKind.commission) :
    ((∃ li ∈ appendCommission platform serviceType ls, li.kind = LineKind.commission) ↔
       platform = "gnet") ∧
    (∀ li ∈ appendCommission platform serviceType ls, li.kind = LineKind.commission →
       li.amount = customerTotal ls *
         (if serviceType = "airport" then commissionRatePremium else commissionRateStandard)) ∧
    customerTotal (appendCommission platform serviceType ls) = customerTotal ls := by
  by_cases hp : platform = "gnet"
  · subst hp
    unfold appendCommission
    rw [if_pos rfl]
    refine ⟨?_, ?_, ?_⟩
    · constructor
      · intro _; rfl
      · intro _
        refine ⟨⟨"GNET Commission",
                 simulateCommissionCalculation serviceType (customerTotal ls),
                 LineKind.commission⟩, ?_, rfl⟩
        exact List.mem_append_right ls (List.mem_singleton.mpr rfl)
    · intro li hli hk
      rcases List.mem_append.mp hli with h1 | h2
      · exact absurd hk (hnc li h1)
      · rw [List.mem_singleton] at h2
        subst h2
        rfl
    · unfold customerTotal
      rw [List.filter_append]
      have hemp : ∀ x : ℚ,
          List.filter (fun li : LineItem => decide (li.kind ≠ LineKind.commission))
            [⟨"GNET Commission", x, LineKind.commission⟩] = [] := by
        intro x; simp
      rw [hemp, List.append_nil]
  · unfold appendCommission
    rw [if_neg hp]
    refine ⟨?_, ?_, rfl⟩
    · constructor
      · rintro ⟨li, hli, hk⟩
        exact absurd hk (hnc li hli)
      · intro hg; exact absurd hg hp
    · intro li hli hk
      exact absurd hk (hnc li hli)

/-- Witness for C1 at a concrete Partner airport breakdown. -/
theorem commission_iff_partner_witness :
    ((∃ li ∈ appendCommission "gnet" "airport" [⟨"Base Rate", 450, LineKind.base⟩],
        li.kind = LineKind.commission) ↔ ("gnet" : String) = "gnet") ∧
    (∀ li ∈ appendCommission "gnet" "airport" [⟨"Base Rate", 450, LineKind.base⟩],
        li.kind = LineKind.commission →
        li.amount = customerTotal [⟨"Base Rate", 450, LineKind.base⟩] *
          (if ("airport" : String) = "airport" then commissionRatePremium
           else commissionRateStandard)) ∧
    customerTotal (appendCommission "gnet" "airport" [⟨"Base Rate", 450, LineKind.base⟩]) =
      customerTotal [⟨"Base Rate", 450, LineKind.base⟩] :=
  commission_iff_partner "gnet" "airport" [⟨"Base Rate", 450, LineKind.base⟩]
    (by
      intro li hli
      rw [List.mem_singleton] at hli
      subst hli
      decide)

/-- Claim C2: for a recognised vehicle class, any duration at or below three
hours is billed exactly like three hours, on the plain and on every
per-platform hourly simulation, and such a request is billed at the
three-hour minimum rather than rejected. -/
theorem hourly_minimum_clamp (v : String) (h : ℚ) (hle : h ≤ 3) :
    simulateHourlyRate v h = simulateHourlyRate v 3 ∧
    (∀ p, simulatePlatformHourlyRate p v h = simulatePlatformHourlyRate p v 3) ∧
    (∀ r, alook v hourlyRates = some r → simulateHourlyRate v h = some (r * 3)) := by
  have hm : jsMax h 3 = 3 := by unfold jsMax; rw [if_pos hle]
  have hm3 : jsMax 3 3 = 3 := by unfold jsMax; rw [if_pos le_rfl]
  refine ⟨?_, ?_, ?_⟩
  · simp only [simulateHourlyRate, hm, hm3]
  · intro p; simp only [simulatePlatformHourlyRate, hm, hm3]
  · intro r hr; simp only [simulateHourlyRate, hr, hm]

/-- Witness for C2 at a zero-hour sedan request. -/
theorem hourly_minimum_clamp_witness :
    ((0 : ℚ) ≤ 3) ∧ simulateHourlyRate "sedan" 0 = simulateHourlyRate "sedan" 3 :=
  ⟨by norm_num, (hourly_minimum_clamp "sedan" 0 (by norm_num)).1⟩

/-- Claim C3: an Airport quote for a route without a table entry or for a
vehicle class with no airport table is the typed null outcome, never a zero
or fabricated price; in particular Sedan norfolk to dca is unavailable. -/
theorem airport_route_unavailable :
    getRate "sedan" "norfolk" "dca" = none ∧
    simulateAirportZoneRate "sedan" "norfolk" "dca" = none ∧
    (∀ z a, getRate "executive-mini-bus" z a = none ∧
            getRate "mini-bus-sofa" z a = none ∧
            getRate "stretch-limo" z a = none) ∧
    (∀ v z a, getRate v z a = none ∨ ∃ r, getRate v z a = some r ∧ 0 < r) ∧
    (∀ v z a, simulateAirportZoneRate v z a = none ∨
              ∃ r, simulateAirportZoneRate v z a = some r ∧ 0 < r) :=
  ⟨rfl, rfl, fun _ _ => ⟨rfl, rfl, rfl⟩,
   fun _ _ _ => jsOrNull_cases _, fun _ _ _ => jsOrNull_cases _⟩

/-- Claim C4: the resolver consults query parameters, hostname, path and
referrer in that order, the first matching tier short-circuiting the rest;
in particular a Partner query parameter beats a Corporate-matching hostname. -/
theorem resolver_priority (s : RequestSignals) :
    (∀ p, checkUrlParameters s.queryParams = some p → detectPlatform s = p) ∧
    (checkUrlParameters s.queryParams = none →
      ∀ p, checkSubdomain s.hostname = some p → detectPlatform s = p) ∧
    (checkUrlParameters s.queryParams = none → checkSubdomain s.hostname = none →
      ∀ p, checkPath s.pathname = some p → detectPlatform s = p) ∧
    (checkUrlParameters s.queryParams = none → checkSubdomain s.hostname = none →
      checkPath s.pathname = none → ∀ p, checkReferrer s.referrer = some p →
      detectPlatform s = p) ∧
    (checkUrlParameters s.queryParams = some Platform.gnet →
      hostMatchesPlatform Platform.groundspan s.hostname = true →
      detectPlatform s = Platform.gnet) := by
  refine ⟨?_, ?_, ?_, ?_, ?_⟩
  · intro p hp; simp only [detectPlatform, hp]
  · intro h0 p hp; simp only [detectPlatform, h0, hp]
  · intro h0 h1 p hp; simp only [detectPlatform, h0, h1, hp]
  · intro h0 h1 h2 p hp; simp only [detectPlatform, h0, h1, h2, hp]
  · intro hq _; simp only [detectPlatform, hq]

/-- Witness for C4: a gnet query parameter together with the corporate
hostname resolves to Partner. -/
theorem resolver_priority_witness :
    detectPlatform ⟨[("source", "gnet")], "corporate.tntlimousine.com", "", "", none⟩ =
      Platform.gnet :=
  (resolver_priority ⟨[("source", "gnet")], "corporate.tntlimousine.com", "", "", none⟩).2.2.2.2
    (by decide) (by decide)

/-- Claim C5: resolution always lands in the closed platform set, an empty
or unrecognised signal set resolves to retail, and an unrecognised stored
preference is a no-match, so resolution never fails open. -/
theorem resolver_total_default_retail (s : RequestSignals) :
    (detectPlatform s = Platform.retail ∨ detectPlatform s = Platform.gnet ∨
      detectPlatform s = Platform.groundspan) ∧
    detectPlatform ⟨[], "", "", "", none⟩ = Platform.retail ∧
    detectPlatform ⟨[], "", "", "", some "admin"⟩ = Platform.retail ∧
    (checkUrlParameters s.queryParams = none → checkSubdomain s.hostname = none →
      checkPath s.pathname = none → checkReferrer s.referrer = none →
      s.stored.bind platformKey? = none → detectPlatform s = Platform.retail) := by
  refine ⟨?_, rfl, rfl, ?_⟩
  · cases h : detectPlatform s with
    | retail => exact Or.inl rfl
    | gnet => exact Or.inr (Or.inl rfl)
    | groundspan => exact Or.inr (Or.inr rfl)
  · intro h0 h1 h2 h3 h4
    simp only [detectPlatform, h0, h1, h2, h3, h4]

/-- Witness for C5: an unrecognised stored preference falls through to retail. -/
theorem resolver_total_default_retail_witness :
    detectPlatform ⟨[], "", "", "", some "hacker"⟩ = Platform.retail :=
  (resolver_total_default_retail ⟨[], "", "", "", some "hacker"⟩).2.2.2
    rfl rfl rfl rfl rfl

/-- Counterexample to C6 as stated: query-parameter comparison is
case-sensitive, so source equal to GNET resolves to retail while source
equal to gnet resolves to gnet. -/
theorem query_param_case_counterexample :
    detectPlatform ⟨[("source", "gnet")], "", "", "", none⟩ = Platform.gnet ∧
    detectPlatform ⟨[("source", "GNET")], "", "", "", none⟩ = Platform.retail ∧
    detectPlatform ⟨[("source", "GNET")], "", "", "", none⟩ ≠
      detectPlatform ⟨[("source", "gnet")], "", "", "", none⟩ := by
  refine ⟨by decide, by decide, by decide⟩

/-- Amended C6: hostname, path and referrer signals are compared
case-insensitively (only their lowercasing matters to resolution), while
query-parameter signals are compared case-sensitively. -/
theorem resolver_case_insensitive_nonparam_signals
    (qs : List (String × String)) (h1 h2 p1 p2 r1 r2 : String) (st : Option String)
    (hh : jsToLower h1 = jsToLower h2) (hp : jsToLower p1 = jsToLower p2)
    (hr : jsToLower r1 = jsToLower r2) :
    detectPlatform ⟨qs, h1, p1, r1, st⟩ = detectPlatform ⟨qs, h2, p2, r2, st⟩ := by
  have e1 : checkSubdomain h1 = checkSubdomain h2 := by
    simp only [checkSubdomain, hostMatchesPlatform, hh]
  have e2 : checkPath p1 = checkPath p2 := by
    simp only [checkPath, hp]
  have e3 : checkReferrer r1 = checkReferrer r2 := by
    simp only [checkReferrer, hr]
  simp only [detectPlatform, e1, e2, e3]

/-- Witness for amended C6: upper-cased hostname and path signals resolve
exactly like their lower-cased forms. -/
theorem resolver_case_insensitive_witness :
    jsToLower "GNET.TNTLIMOUSINE.COM" = jsToLower "gnet.tntlimousine.com" ∧
    detectPlatform ⟨[], "GNET.TNTLIMOUSINE.COM", "/GNET", "", none⟩ =
      detectPlatform ⟨[], "gnet.tntlimousine.com", "/gnet", "", none⟩ :=
  ⟨by decide,
   resolver_case_insensitive_nonparam_signals []
     "GNET.TNTLIMOUSINE.COM" "gnet.tntlimousine.com" "/GNET" "/gnet" "" "" none
     (by decide) (by decide) (by decide)⟩

/-- Claim C7: wherever both a Retail and a Corporate rate are defined, the
Corporate total is at least the Retail total, for hourly and airport
service alike. -/
theorem corporate_total_ge_retail :
    (∀ (v : String) (h r1 r2 : ℚ), simulatePlatformHourlyRate "retail" v h = some r1 →
      simulatePlatformHourlyRate "groundspan" v h = some r2 → r1 ≤ r2) ∧
    (∀ (v a : String) (r1 r2 : ℕ), simulatePlatformAirportRate "retail" v a = some r1 →
      simulatePlatformAirportRate "groundspan" v a = some r2 → r1 ≤ r2) := by
  constructor
  · intro v h r1 r2 h1 h2
    rw [simulatePlatformHourlyRate_eq "retail" v h retailHourlyTable rfl] at h1
    rw [simulatePlatformHourlyRate_eq "groundspan" v h groundspanHourlyTable rfl] at h2
    rcases hv : alook v retailHourlyTable with _ | rate
    · rw [hv] at h1; exact absurd h1 (by simp)
    · rw [hv] at h1
      have hmem := alook_mem hv
      have hnn := jsMax_three_nonneg h
      simp only [retailHourlyTable, List.mem_cons, List.mem_singleton,
        Prod.mk.injEq, List.not_mem_nil, or_false] at hmem
      rcases hmem with ⟨hveq, hrate⟩ | ⟨hveq, hrate⟩ | ⟨hveq, hrate⟩ <;>
        subst hveq <;> subst hrate <;>
        [ rw [show alook "sedan" groundspanHourlyTable = some (110 : ℚ) from rfl] at h2;
          rw [show alook "transit" groundspanHourlyTable = some (147 : ℚ) from rfl] at h2;
          rw [show alook "limo-bus" groundspanHourlyTable = some (218 : ℚ) from rfl] at h2 ] <;>
        norm_num at h1 h2 <;> rw [← h1, ← h2] <;>
        exact mul_le_mul_of_nonneg_right (by norm_num) hnn
  · intro v a r1 r2 h1 h2
    rw [simulatePlatformAirportRate_groundspan_eq] at h2
    rcases hcv : alook v corporateAirportRates with _ | t
    · rw [hcv] at h2; exact absurd h2 (by simp [jsOrNull])
    · rw [hcv] at h2
      have hmem := alook_mem hcv
      simp only [corporateAirportRates, List.mem_singleton, Prod.mk.injEq] at hmem
      obtain ⟨hveq, hteq⟩ := hmem
      subst hveq; subst hteq
      have h2b : jsOrNull (alook a [("dca", 485), ("iad", 495), ("bwi", 705)]) = some r2 := h2
      rcases ha : alook a [("dca", 485), ("iad", 495), ("bwi", 705)] with _ | x
      · rw [ha] at h2b; exact absurd h2b (by simp [jsOrNull])
      · rw [ha] at h2b
        have hamem := alook_mem ha
        simp only [List.mem_cons, List.mem_singleton, Prod.mk.injEq,
          List.not_mem_nil, or_false] at hamem
        rcases hamem with ⟨haeq, hx⟩ | ⟨haeq, hx⟩ | ⟨haeq, hx⟩ <;>
          subst haeq <;> subst hx <;>
          [ rw [show simulatePlatformAirportRate "retail" "sedan" "dca" = some 450 from rfl]
              at h1;
            rw [show simulatePlatformAirportRate "retail" "sedan" "iad" = some 460 from rfl]
              at h1;
            rw [show simulatePlatformAirportRate "retail" "sedan" "bwi" = some 657 from rfl]
              at h1 ] <;>
          simp [jsOrNull] at h1 h2b <;> omega

/-- Witness for C7 at the sedan four-hour scenario. -/
theorem corporate_total_ge_retail_witness :
    simulatePlatformHourlyRate "retail" "sedan" 4 = some 400 ∧
    simulatePlatformHourlyRate "groundspan" "sedan" 4 = some 440 ∧ ((400 : ℚ) ≤ 440) := by
  have h1 : simulatePlatformHourlyRate "retail" "sedan" 4 = some 400 := by
    show some ((100 : ℚ) * jsMax 4 3) = some 400
    norm_num [jsMax]
  have h2 : simulatePlatformHourlyRate "groundspan" "sedan" 4 = some 440 := by
    show some ((110 : ℚ) * jsMax 4 3) = some 440
    norm_num [jsMax]
  exact ⟨h1, h2, corporate_total_ge_retail.1 "sedan" 4 400 440 h1 h2⟩

/-- Claim C8: for a Retail hourly sedan quote over four hours with a Monday
pickup, the pipeline produces a 400 base line, a minus 40 Monday-Thursday
discount line, and a 360 total. -/
theorem sedan_monday_four_hours_retail :
    retailHourlyQuote "sedan" 4 1 12 48 false =
      some [⟨"Base Rate", 400, LineKind.base⟩,
            ⟨"Monday-Thursday Discount", -40, LineKind.timeDiscount⟩] ∧
    customerTotal [⟨"Base Rate", 400, LineKind.base⟩,
                   ⟨"Monday-Thursday Discount", -40, LineKind.timeDiscount⟩] = 360 := by
  constructor
  · norm_num +decide [retailHourlyQuote, alook, hourlyRates, jsMax]
  · show ((0 : ℚ) + 400) + (-40) = 360
    norm_num

/-- Claim C9: a failed availability transport, whether a network error or an
unsuccessful response, degrades to the conservative fallback — available,
sedan, empty conflicts — instead of blocking the quote flow. -/
theorem availability_conservative_fallback (t : Option SyncResponse)
    (hfail : t = none ∨ ∃ r, t = some r ∧ r.success = false) :
    checkVehicleAvailability t = availabilityFallback ∧
    (checkVehicleAvailability t).available = true ∧
    (checkVehicleAvailability t).vehicleClass = "sedan" ∧
    (checkVehicleAvailability t).conflicts = [] := by
  have hmain : checkVehicleAvailability t = availabilityFallback := by
    rcases hfail with h | ⟨r, ht, hs⟩
    · rw [h]; rfl
    · subst ht
      simp [checkVehicleAvailability, hs]
  exact ⟨hmain, by rw [hmain]; rfl, by rw [hmain]; rfl, by rw [hmain]; rfl⟩

/-- Witness for C9 at a network failure. -/
theorem availability_conservative_fallback_witness :
    checkVehicleAvailability none = availabilityFallback :=
  (availability_conservative_fallback none (Or.inl rfl)).1

/-- Claim C10: getRate returns nothing or a strictly positive rate, and
validateRoute accepts a route exactly when getRate offers one. -/
theorem getRate_positive_iff_offered (v z a : String) :
    (∀ r, getRate v z a = some r → 0 < r) ∧
    (validateRoute v z a = true ↔ (getRate v z a).isSome) := by
  constructor
  · intro r hr
    exact jsOrNull_pos hr
  · unfold validateRoute
    rcases hg : getRate v z a with _ | r
    · simp
    · have hpos : 0 < r := jsOrNull_pos hg
      simp [hpos]

/-- Witness for C10 at the sedan central-virginia to dca route. -/
theorem getRate_positive_iff_offered_witness :
    ((0 : ℕ) < 450) ∧
    (validateRoute "sedan" "central-virginia" "dca" = true ↔
      (getRate "sedan" "central-virginia" "dca").isSome) :=
  ⟨(getRate_positive_iff_offered "sedan" "central-virginia" "dca").1 450 rfl,
   (getRate_positive_iff_offered "sedan" "central-virginia" "dca").2⟩

end TNT
